import Mathlib

/-!
# Verification of the credit-card affordability engine (finances-api)

Shallow embedding of the credit-card affordability simulation engine of the
`finances-api` repository, together with theorems settling the frozen claims
about it.

Monetary amounts are modelled exactly over `ℚ` (the TypeScript source computes
over IEEE doubles; every formula the claims mention is plain field arithmetic
with `Math.ceil`/`Math.min`/`Math.max`, which we mirror over the rationals).
JavaScript `Date` values are modelled by an absolute month counter
(`year * 12 + monthIndex`, with the 0-based month index of `Date.getMonth`)
plus a day of month, and `Date.setMonth` is modelled with its overflow
normalization (day 31 in a 30-day month spills into the following month).
JavaScript objects used as month-keyed dictionaries are modelled as
association lists with overwrite-on-set and 0-defaulted lookup, matching
`map[key] = v` and `map[key] || 0` in the source.

The primary embedding follows `src/services/credit-card.service.new.ts`.
Two further revisions of the engine present in the repository are embedded
where claims cite them: the environment-conditioned `canPayTotal` rule of the
expense-calculator revision, and the verdict computation of
`src/services/credit-card.service.ts`.
-/

/-- A JavaScript `Date`, reduced to the fields the engine reads: `ym` is the
absolute month counter `getFullYear () * 12 + getMonth ()` and `day` is
`getDate ()` (1-based). The engine never reads time-of-day. -/
structure JSDate where
  ym : ℤ
  day : ℕ
deriving DecidableEq, Repr

/-- Gregorian leap-year rule, as implemented by the JavaScript `Date`
normalization. -/
def isLeapYear (y : ℤ) : Bool :=
  (y.emod 4 == 0 && y.emod 100 != 0) || y.emod 400 == 0

/-- Number of days of the month denoted by the absolute month counter `ym`
(month index `ym mod 12`, year `ym div 12`). -/
def daysInMonth (ym : ℤ) : ℕ :=
  let m := ym.emod 12
  if m = 1 then (if isLeapYear (ym.fdiv 12) then 29 else 28)
  else if m = 3 ∨ m = 5 ∨ m = 8 ∨ m = 10 then 30
  else 31

/-- `d.setMonth (d.getMonth () + k)` on a copy of `d`: the month counter moves
by `k` and, when the day of month does not exist in the target month, the date
normalizes into the following month (e.g. Jan 31 plus one month is Mar 3).
Since the day of a JS date is at most 31 and every month has at least 28 days,
a single carry suffices. -/
def addMonthsJS (d : JSDate) (k : ℤ) : JSDate :=
  let ym := d.ym + k
  if d.day ≤ daysInMonth ym then ⟨ym, d.day⟩
  else ⟨ym + 1, d.day - daysInMonth ym⟩

/-- The date denoted by the words of the specification: `startDate` plus `k`
calendar months, same day of month. Used only to compare the scheduler's
actual due dates against the claim. -/
def plusCalendarMonths (d : JSDate) (k : ℤ) : JSDate :=
  ⟨d.ym + k, d.day⟩

/-- `InstallmentStatus` of `credit-card.interface.ts`. -/
inductive InstallmentStatus where
  | pending
  | paid
deriving DecidableEq, Repr

/-- `IInstallment` of `credit-card.interface.ts`. -/
structure Installment where
  number : ℕ
  amount : ℚ
  dueDate : JSDate
  status : InstallmentStatus
deriving DecidableEq, Repr

/-- `ICreditCardFund`, restricted to the fields the engine reads
(`userId` and `lastUpdateDate` only route persistence). -/
structure Fund where
  monthlyContribution : ℚ
  maxMonthlyContribution : ℚ
  accumulatedAmount : ℚ
deriving DecidableEq, Repr

/-- `ICreditCardExpense`, restricted to the fields the engine reads. -/
structure Expense where
  amount : ℚ
  totalInstallments : ℕ
  installments : List Installment
  isSimulation : Bool
deriving DecidableEq, Repr

/-- `ICreditCardExpenseCreate`, restricted to the fields `createExpense`
reads. -/
structure ExpenseCreate where
  amount : ℚ
  totalInstallments : ℕ
  purchaseDate : Option JSDate
  isSimulation : Bool
deriving DecidableEq, Repr

/-- A JavaScript object used as a month-keyed dictionary of amounts:
an association list where `set` overwrites in place and lookups default to
`0`, matching `map[key] || 0`. -/
abbrev JSMap := List (ℤ × ℚ)

/-- `map[key] || 0` (a stored `0` is falsy and also reads back as `0`). -/
def JSMap.getD : JSMap → ℤ → ℚ
  | [], _ => 0
  | (k0, v0) :: rest, k => if k0 = k then v0 else JSMap.getD rest k

/-- `map[key] = v`: overwrite the existing entry in place, or append. -/
def JSMap.set : JSMap → ℤ → ℚ → JSMap
  | [], k, v => [(k, v)]
  | (k0, v0) :: rest, k, v =>
      if k0 = k then (k, v) :: rest else (k0, v0) :: JSMap.set rest k v

/-- Value of the entry inserted last (`Object.keys (map) [length - 1]`
under insertion order), `0` for the empty map. -/
def JSMap.lastValue : JSMap → ℚ
  | [] => 0
  | [(_, v)] => v
  | _ :: rest => JSMap.lastValue rest

/-- `generateInstallments` of `credit-card.service.new.ts` (lines 512-529;
the copies in `credit-card.service.ts` and `calculateInstallments` of
`expense-calculator.ts` have the same loop body): one installment per loop
iteration `i = 0 .. totalInstallments - 1`, numbered `i + 1`, each of amount
`amount / totalInstallments`, due at `startDate` moved `i` months by
`setMonth`, initially pending. No input validation is performed. -/
def generateInstallments (amount : ℚ) (totalInstallments : ℕ) (startDate : JSDate) :
    List Installment :=
  (List.range totalInstallments).map (fun i =>
    { number := i + 1
      amount := amount / totalInstallments
      dueDate := addMonthsJS startDate i
      status := InstallmentStatus.pending })

/-! ## The simulation engine of `credit-card.service.new.ts` (lines 269-509)

The engine is a pure computation once the fund and the user's non-simulation
expenses have been loaded; `baseDate` stands for `new Date ()` (the current
date) and is passed explicitly. -/

/-- Lines 299-304: the horizon `max (12, totalInstallments + 3)` of months,
as absolute month counters, starting at the current month. -/
def simulationMonths (base : JSDate) (totalInstallments : ℕ) : List ℤ :=
  (List.range (max 12 (totalInstallments + 3))).map (fun i => (addMonthsJS base i).ym)

/-- Lines 306-322: the month-keyed available-funds ledger. The current month
is seeded with `accumulatedAmount`; every later horizon month holds the
previous month's value plus `monthlyContribution`. (This revision never
subtracts obligations inside the ledger.) -/
def monthlyAvailableFunds (base : JSDate) (fund : Fund) (totalInstallments : ℕ) : JSMap :=
  let months := simulationMonths base totalInstallments
  let init := JSMap.set [] base.ym fund.accumulatedAmount
  (months.tail.zip months).foldl
    (fun m p => JSMap.set m p.1 (JSMap.getD m p.2 + fund.monthlyContribution)) init

/-- Result of the single pass of lines 324-343 over the user's expenses:
the month-keyed map of existing pending payments, and the running totals
`pendingAmount` and `pendingInstallments`. -/
structure PendingAgg where
  map : JSMap
  amount : ℚ
  count : ℕ

/-- Lines 324-343: bucket every pending installment of the existing expenses
by its due month (`+=` on the map), counting them and summing their
amounts. -/
def pendingAgg (expenses : List Expense) : PendingAgg :=
  expenses.foldl (fun acc e =>
    e.installments.foldl (fun acc2 inst =>
      if inst.status = InstallmentStatus.pending then
        { map := JSMap.set acc2.map inst.dueDate.ym
            (JSMap.getD acc2.map inst.dueDate.ym + inst.amount)
          amount := acc2.amount + inst.amount
          count := acc2.count + 1 }
      else acc2) acc) ⟨[], 0, 0⟩

/-- Lines 345-359: the proposed expense's payments bucketed by due month.
The source assigns (`=`, not `+=`) `installmentAmount` under each computed
month key. -/
def simulationMonthlyPayments (start : JSDate) (amount : ℚ) (totalInstallments : ℕ) : JSMap :=
  (List.range totalInstallments).foldl
    (fun m i => JSMap.set m (addMonthsJS start i).ym (amount / totalInstallments)) []

/-- Lines 361-369: per horizon month, existing plus proposed payments. -/
def totalMonthlyPayments (months : List ℤ) (existing simPay : JSMap) : JSMap :=
  months.foldl (fun m k => JSMap.set m k (JSMap.getD existing k + JSMap.getD simPay k)) []

/-- One entry of `monthlyProjections` (lines 399-407). The display-only
`monthLabel` (a locale-formatted string) is omitted. -/
structure Projection where
  month : ℤ
  totalBefore : ℚ
  newPayment : ℚ
  totalFinal : ℚ
  remainingMargin : ℚ
  status : String
deriving DecidableEq, Repr

/-- Lines 392-408, body of the projection loop for one month key. -/
def buildProjection (avail existing simPay : JSMap) (k : ℤ) : Projection :=
  let a := JSMap.getD avail k
  let e := JSMap.getD existing k
  let s := JSMap.getD simPay k
  let t := e + s
  let margin := a - t
  { month := k
    totalBefore := e
    newPayment := s
    totalFinal := t
    remainingMargin := margin
    status := if 0 ≤ margin then "Verde" else "Rojo" }

/-- Lines 381-408: the month-by-month projection list. -/
def monthlyProjections (base : JSDate) (fund : Fund) (expenses : List Expense)
    (amount : ℚ) (totalInstallments : ℕ) (start : JSDate) : List Projection :=
  (simulationMonths base totalInstallments).map
    (buildProjection (monthlyAvailableFunds base fund totalInstallments)
      (pendingAgg expenses).map
      (simulationMonthlyPayments start amount totalInstallments))

/-- Lines 371-379: the month-keyed margin map (available funds before payment
minus total obligations of the month). -/
def monthlyMargins (base : JSDate) (fund : Fund) (expenses : List Expense)
    (amount : ℚ) (totalInstallments : ℕ) (start : JSDate) : JSMap :=
  let months := simulationMonths base totalInstallments
  let avail := monthlyAvailableFunds base fund totalInstallments
  let pay := totalMonthlyPayments months (pendingAgg expenses).map
    (simulationMonthlyPayments start amount totalInstallments)
  months.foldl (fun m k => JSMap.set m k (JSMap.getD avail k - JSMap.getD pay k)) []

/-- Line 411: the horizon verdict, true exactly when every projection has
status `Verde`. -/
def canPayTotalOf (projections : List Projection) : Bool :=
  projections.all (fun p => p.status == "Verde")

/-- Lines 413-416: the first-month verdict, the status of the projection whose
month matches the proposed start month; `false` when no projection matches. -/
def canPayFirstMonthOf (projections : List Projection) (start : JSDate) : Bool :=
  match projections.find? (fun p => p.month == start.ym) with
  | some p => p.status == "Verde"
  | none => false

/-- Lines 418-421: the affordability verdict is selected by installment
count. -/
def canAffordOf (projections : List Projection) (start : JSDate)
    (totalInstallments : ℕ) : Bool :=
  if totalInstallments = 1 then canPayFirstMonthOf projections start
  else canPayTotalOf projections

/-- Lines 429-432: the deficit, summing `|remainingMargin|` over the
insufficient (`Rojo`) months. -/
def deficitOf (projections : List Projection) : ℚ :=
  ((projections.filter (fun p => p.status == "Rojo")).map
    (fun p => |p.remainingMargin|)).sum

/-- Lines 434-461 of the advisor. The truthiness test
`fund.maxMonthlyContribution && ...` is modelled as `≠ 0`; the literals `1.5`
and `0.3` are the rationals `3/2` and `3/10` (the source computes them as
doubles). The reasonable duration is well defined over `ℚ` whenever
`monthlyContribution ≠ 0`; at `monthlyContribution = 0` the source's float
division yields `Infinity` and clamps to 6, while `ℚ` division by zero yields
`0` and clamps to 1 — theorems about the advisor therefore do not depend on
that corner, or assume a positive contribution. -/
def suggestedContributionOf (fund : Fund) (amount : ℚ) (totalInstallments : ℕ)
    (deficit : ℚ) : ℚ :=
  let maxReasonable :=
    if fund.maxMonthlyContribution ≠ 0 ∧
        fund.monthlyContribution < fund.maxMonthlyContribution then
      fund.maxMonthlyContribution
    else
      max (fund.monthlyContribution * (3 / 2))
        ((amount / totalInstallments) * (3 / 2))
  let reasonableDuration : ℤ :=
    min 6 (max 1 ⌈deficit / (fund.monthlyContribution * (3 / 10))⌉)
  let extraNeededPerMonth : ℚ :=
    (⌈deficit / (reasonableDuration : ℚ) / 100⌉ : ℚ) * 100
  min (fund.monthlyContribution + extraNeededPerMonth) maxReasonable

/-- Lines 463-472: the suggested remediation duration; `0` (its initial value)
when the suggested contribution does not exceed the current one. -/
def suggestedDurationOf (monthlyContribution deficit suggested : ℚ) : ℤ :=
  if monthlyContribution < suggested then
    max 1 ⌈deficit / (suggested - monthlyContribution)⌉
  else 0

/-- `ISimulationResult` of `credit-card.interface.ts`, as assembled by
`credit-card.service.new.ts` lines 475-504. -/
structure SimulationResult where
  canAfford : Bool
  canPayTotal : Bool
  availableFunds : ℚ
  projectedAvailableFunds : ℚ
  projectedAvailableFundsAtStart : ℚ
  requiredFunds : ℚ
  monthlyRequiredFunds : ℚ
  totalRequiredFunds : ℚ
  projectedBalance : ℚ
  totalProjectedBalance : ℚ
  pendingInstallments : ℕ
  pendingAmount : ℚ
  installmentAmount : ℚ
  suggestedMonthlyContribution : ℚ
  suggestedDurationMonths : ℤ
  monthlyProjections : List Projection
deriving DecidableEq, Repr

/-- `simulateExpense` of `credit-card.service.new.ts` (lines 269-509), after
the fund and the user's non-simulation expenses have been loaded. `baseDate`
is the current date, `startDate` the optional requested purchase date
(defaulted to `baseDate`, line 294). The advisor fields keep their
initializer `0` when the proposal is affordable (lines 424-426). -/
def simulateExpense (base : JSDate) (fund : Fund) (expenses : List Expense)
    (amount : ℚ) (totalInstallments : ℕ) (startDate : Option JSDate) :
    SimulationResult :=
  let start := startDate.getD base
  let installmentAmount := amount / totalInstallments
  let agg := pendingAgg expenses
  let months := simulationMonths base totalInstallments
  let avail := monthlyAvailableFunds base fund totalInstallments
  let projections := monthlyProjections base fund expenses amount totalInstallments start
  let canPayTotal := canPayTotalOf projections
  let canAfford := canAffordOf projections start totalInstallments
  let deficit := deficitOf projections
  let projectedAtStart := JSMap.getD avail start.ym
  let fundsNeededForExisting := JSMap.getD agg.map start.ym
  let monthlyRequired := fundsNeededForExisting + installmentAmount
  let projectedAvailable := JSMap.getD avail (months.getLastD 0)
  { canAfford := canAfford
    canPayTotal := canPayTotal
    availableFunds := fund.accumulatedAmount + fund.monthlyContribution
    projectedAvailableFunds := projectedAvailable
    projectedAvailableFundsAtStart := projectedAtStart
    requiredFunds := monthlyRequired
    monthlyRequiredFunds := monthlyRequired
    totalRequiredFunds := agg.amount + amount
    projectedBalance := projectedAtStart - monthlyRequired
    totalProjectedBalance := projectedAvailable - (agg.amount + amount)
    pendingInstallments := agg.count
    pendingAmount := agg.amount
    installmentAmount := installmentAmount
    suggestedMonthlyContribution :=
      if canAfford then 0
      else suggestedContributionOf fund amount totalInstallments deficit
    suggestedDurationMonths :=
      if canAfford then 0
      else suggestedDurationOf fund.monthlyContribution deficit
        (suggestedContributionOf fund amount totalInstallments deficit)
    monthlyProjections := projections }

/-- The service entry point of `simulateExpense` (lines 269-276): the fund
lookup result is an `Option`, and a missing fund raises the error before any
computation; with a fund present the engine runs and returns its result. -/
def simulateExpenseService (base : JSDate) (fundLookup : Option Fund)
    (expenses : List Expense) (amount : ℚ) (totalInstallments : ℕ)
    (startDate : Option JSDate) : Except String SimulationResult :=
  match fundLookup with
  | none => Except.error "Credit card fund not found for this user"
  | some fund =>
      Except.ok (simulateExpense base fund expenses amount totalInstallments startDate)

/-- `expense.save ()` on the mongoose model of `credit-card-expense.model.ts`:
saving runs the schema validators, and the only validator that can fail over
the fields carried by this embedding is `totalInstallments: { min: 1 }` — a
smaller value makes `save ()` throw a ValidationError and persist nothing.
The remaining validators are vacuous here: the numeric fields (`amount`,
installment `number`/`amount`/`dueDate`) are `required` but carry no bounds
(in particular `amount` has no `min`), installment statuses lie in the schema
enum by construction, and the `required` strings `description` and `userId`
are routing data outside this embedding, assumed present. The source's
ValidationError message interpolates paths and values; a constant text is
kept. -/
def saveExpense (expense : Expense) : Except String Expense :=
  if 1 ≤ expense.totalInstallments then Except.ok expense
  else Except.error "CreditCardExpense validation failed"

/-- `createExpense` of `credit-card.service.new.ts` (lines 108-159).
Persistence is modelled by the returned value: an `Except.error` means the
expense was not saved (and the fund is never touched on this path); an
`Except.ok` carries the expense as saved, with its generated installments.
Both saving branches go through the schema validation of `expense.save ()`
(`saveExpense`). -/
def createExpense (base : JSDate) (fundLookup : Option Fund)
    (expenses : List Expense) (data : ExpenseCreate) : Except String Expense :=
  match fundLookup with
  | none => Except.error "Credit card fund not found for this user"
  | some fund =>
      if data.isSimulation then
        saveExpense
          { amount := data.amount
            totalInstallments := data.totalInstallments
            installments := generateInstallments data.amount data.totalInstallments
              (data.purchaseDate.getD base)
            isSimulation := data.isSimulation }
      else if (simulateExpense base fund expenses data.amount data.totalInstallments
          data.purchaseDate).canAfford then
        saveExpense
          { amount := data.amount
            totalInstallments := data.totalInstallments
            installments := generateInstallments data.amount data.totalInstallments
              (data.purchaseDate.getD base)
            isSimulation := data.isSimulation }
      else Except.error "Insufficient funds to create this expense"

/-- Replace the status of the first installment with the given number,
mirroring the in-place mutation of the object returned by
`installments.find` (lines 212-219). -/
def setStatusFirst : List Installment → ℕ → InstallmentStatus → List Installment
  | [], _, _ => []
  | inst :: rest, n, status =>
      if inst.number = n then { inst with status := status } :: rest
      else inst :: setStatusFirst rest n status

/-- `updateInstallmentStatus` of `credit-card.service.new.ts` (lines 198-239):
find the installment by number (error when absent), set its status, and — only
when marking as paid and the user's fund exists — lower the fund's
accumulated amount by the installment amount, floored at 0. Returns the saved
expense together with the possibly-updated fund. The source interpolates the
installment number into the error message; the constant text is kept here. -/
def updateInstallmentStatus (expense : Expense) (fundLookup : Option Fund)
    (installmentNumber : ℕ) (status : InstallmentStatus) :
    Except String (Expense × Option Fund) :=
  match expense.installments.find? (fun i => i.number == installmentNumber) with
  | none => Except.error "Installment not found"
  | some inst =>
      let saved :=
        { expense with
            installments := setStatusFirst expense.installments installmentNumber status }
      let fund2 :=
        if status = InstallmentStatus.paid then
          match fundLookup with
          | some fund =>
              some { fund with
                accumulatedAmount := max 0 (fund.accumulatedAmount - inst.amount) }
          | none => none
        else fundLookup
      Except.ok (saved, fund2)

/-! ## The environment-conditioned revision (`expense-calculator.ts` file,
`CreditCardService.simulateExpense` revision at lines 619-911 of the
delivered file)

This revision shares the horizon, the payment bucketing and the projection
arithmetic with `credit-card.service.new.ts`, but its ledger subtracts each
month's obligations before adding the next contribution, and its `canPayTotal`
(lines 803-817) branches on `process.env.NODE_ENV === 'test'`: in test mode it
only requires at least 70% of the horizon months to be green. The
`isTestEnvironment` flag is passed explicitly. The first-month conditional of
lines 736-745 never changes the computed value (both branches leave
`disponible` as the map value) and is therefore not reproduced. -/

/-- Lines 703-756: ledger of this revision. The first horizon month is seeded
with `accumulatedAmount`; each following month receives the previous month's
balance after payments plus the monthly contribution. -/
def envLedgerStep (c : ℚ) (pay : JSMap) : List ℤ → JSMap → JSMap
  | [], m => m
  | [_], m => m
  | k :: next :: rest, m =>
      envLedgerStep c pay (next :: rest)
        (JSMap.set m next ((JSMap.getD m k - JSMap.getD pay k) + c))

/-- Lines 714-756 assembled: the available-funds map of the
environment-conditioned revision. -/
def envMonthlyAvailableFunds (base : JSDate) (fund : Fund) (expenses : List Expense)
    (amount : ℚ) (totalInstallments : ℕ) (start : JSDate) : JSMap :=
  let months := simulationMonths base totalInstallments
  let pay := totalMonthlyPayments months (pendingAgg expenses).map
    (simulationMonthlyPayments start amount totalInstallments)
  let init :=
    match months with
    | [] => []
    | k :: _ => JSMap.set [] k fund.accumulatedAmount
  envLedgerStep fund.monthlyContribution pay months init

/-- Lines 779-801: the projection list of this revision (additional display
fields `accumulatedFunds` and `balanceAfterPayments` omitted; status and
margin are computed exactly as in the primary revision). -/
def envMonthlyProjections (base : JSDate) (fund : Fund) (expenses : List Expense)
    (amount : ℚ) (totalInstallments : ℕ) (start : JSDate) : List Projection :=
  (simulationMonths base totalInstallments).map
    (buildProjection (envMonthlyAvailableFunds base fund expenses amount totalInstallments start)
      (pendingAgg expenses).map
      (simulationMonthlyPayments start amount totalInstallments))

/-- Lines 806-817: the environment-conditioned horizon verdict. In the test
environment `canPayTotal` holds when at least 70% of the horizon months are
green; otherwise every month must be green. -/
def envCanPayTotalOf (isTestEnvironment : Bool) (projections : List Projection) : Bool :=
  if isTestEnvironment then
    ((projections.filter (fun p => p.status == "Verde")).length : ℚ) ≥
      (projections.length : ℚ) * (7 / 10)
  else
    projections.all (fun p => p.status == "Verde")

/-- The fields of this revision's result that the claims examine. -/
structure EnvResult where
  canPayTotal : Bool
  canAfford : Bool
  monthlyProjections : List Projection
deriving DecidableEq, Repr

/-- The environment-conditioned `simulateExpense` (lines 619-911), reduced to
the verdicts and the projection list. -/
def envSimulateExpense (isTestEnvironment : Bool) (base : JSDate) (fund : Fund)
    (expenses : List Expense) (amount : ℚ) (totalInstallments : ℕ)
    (startDate : Option JSDate) : EnvResult :=
  let start := startDate.getD base
  let projections :=
    envMonthlyProjections base fund expenses amount totalInstallments start
  let canPayTotal := envCanPayTotalOf isTestEnvironment projections
  let canPayFirstMonth := canPayFirstMonthOf projections start
  { canPayTotal := canPayTotal
    canAfford := if totalInstallments = 1 then canPayFirstMonth else canPayTotal
    monthlyProjections := projections }

/-! ## The verdict computation of `credit-card.service.ts` (lines 231-735)

The oldest revision projects a fund-flow without the proposed expense
(`monthlyBalances`), then checks the start month and simulates only the
proposed installments on top of it (`canMaintainPayments`). Its
`canPayTotal` compares the final projected balance against
`pendingAmount + amount` (line 527), and its multi-installment verdict is
`canPayFirstMonth && canMaintainPayments` (line 532). -/

/-- Lines 263-282 and 321-337: existing pending payments bucketed by due
month (`+=` on the map), and their running total. -/
def oldPendingAmount (expenses : List Expense) : ℚ :=
  expenses.foldl (fun acc e =>
    e.installments.foldl (fun acc2 inst =>
      if inst.status = InstallmentStatus.pending then acc2 + inst.amount
      else acc2) acc) 0

/-- Lines 321-337: the month-keyed map of existing pending payments. -/
def oldMonthlyPaymentsWithoutSimulation (expenses : List Expense) : JSMap :=
  expenses.foldl (fun acc e =>
    e.installments.foldl (fun acc2 inst =>
      if inst.status = InstallmentStatus.pending then
        JSMap.set acc2 inst.dueDate.ym
          (JSMap.getD acc2 inst.dueDate.ym + inst.amount)
      else acc2) acc) []

/-- Lines 384-434: the month-by-month fund-flow without the proposed expense,
from the current month up to `monthsDifference + totalInstallments` months
ahead: each month adds the contribution and subtracts that month's existing
payments. -/
def oldMonthlyBalances (base : JSDate) (fund : Fund) (expenses : List Expense)
    (steps : ℕ) : JSMap :=
  let pay := oldMonthlyPaymentsWithoutSimulation expenses
  ((List.range steps).map (fun i => (i : ℤ) + 1)).foldl
    (fun m i =>
      let key := (addMonthsJS base i).ym
      let prevKey := (addMonthsJS (addMonthsJS base i) (-1)).ym
      JSMap.set m key
        ((JSMap.getD m prevKey + fund.monthlyContribution) - JSMap.getD pay key))
    (JSMap.set [] base.ym fund.accumulatedAmount)

/-- Lines 477-521: the maintenance loop. Starting from a copy of the
balances, each proposed installment month pays `installmentAmount`; a
negative balance aborts with `false`, otherwise the change is propagated to
the following simulated month when that month is present in the map. -/
def oldMaintainLoop (installmentAmount : ℚ) (balances : JSMap) :
    List ℤ → JSMap → Bool
  | [], _ => true
  | k :: rest, simBal =>
      let current := JSMap.getD simBal k - installmentAmount
      let simBal2 := JSMap.set simBal k current
      if current < 0 then false
      else
        let simBal3 :=
          match rest with
          | [] => simBal2
          | nextK :: _ =>
              if (simBal2.find? (fun e => e.1 == nextK)).isSome then
                JSMap.set simBal2 nextK
                  (JSMap.getD simBal2 nextK + (current - JSMap.getD balances k))
              else simBal2
        oldMaintainLoop installmentAmount balances rest simBal3

/-- The verdict fields of the oldest revision's `simulateExpense`. -/
structure OldVerdicts where
  canPayFirstMonth : Bool
  canMaintainPayments : Bool
  canPayTotal : Bool
  canAfford : Bool
deriving DecidableEq, Repr

/-- The verdict computation of `credit-card.service.ts` `simulateExpense`
(lines 231-735): `canPayFirstMonth` compares the projected balance of the
start month against the proposed installment (line 470), the maintenance
loop runs only when the first month clears (lines 475-524), `canPayTotal`
compares the final projected balance against the total required funds
(line 527), and the verdict is selected at line 532. -/
def oldSimulateVerdicts (base : JSDate) (fund : Fund) (expenses : List Expense)
    (amount : ℚ) (totalInstallments : ℕ) (startDate : Option JSDate) : OldVerdicts :=
  let start := startDate.getD base
  let installmentAmount := amount / totalInstallments
  let monthsDifference := start.ym - base.ym
  let steps := (monthsDifference + totalInstallments).toNat
  let balances := oldMonthlyBalances base fund expenses steps
  let availableBalanceAtStart := JSMap.getD balances start.ym
  let canPayFirstMonth := availableBalanceAtStart ≥ installmentAmount
  let simMonths := (List.range totalInstallments).map (fun i => (addMonthsJS start i).ym)
  let canMaintainPayments :=
    if canPayFirstMonth then
      oldMaintainLoop installmentAmount balances simMonths balances
    else false
  let projectedAvailableFunds := JSMap.lastValue balances
  let canPayTotal := projectedAvailableFunds ≥ oldPendingAmount expenses + amount
  { canPayFirstMonth := canPayFirstMonth
    canMaintainPayments := canMaintainPayments
    canPayTotal := canPayTotal
    canAfford :=
      if totalInstallments = 1 then canPayFirstMonth
      else canPayFirstMonth && canMaintainPayments }

/-! ## Helper lemmas -/

/-- Reading a map after a write: the written key returns the written value,
every other key is unaffected. -/
theorem JSMap.getD_set (m : JSMap) (k : ℤ) (v : ℚ) (q : ℤ) :
    JSMap.getD (JSMap.set m k v) q = if k = q then v else JSMap.getD m q := by
  induction m with
  | nil => simp [JSMap.set, JSMap.getD]
  | cons hd tl ih =>
      obtain ⟨k0, v0⟩ := hd
      by_cases h1 : k0 = k
      · subst h1
        by_cases h2 : k0 = q <;> simp [JSMap.set, JSMap.getD, h2]
      · by_cases h2 : k0 = q
        · have h3 : ¬k = q := fun h => h1 (h2.trans h.symm)
          have h4 : ¬q = k := fun h => h3 h.symm
          simp [JSMap.set, JSMap.getD, h1, h2, h3, h4]
        · simp [JSMap.set, JSMap.getD, h1, h2, ih]

/-- A fold writing pointwise-dominated values into pointwise-dominated maps
yields pointwise-dominated maps. -/
theorem foldSet_getD_mono (f g : ℤ → ℚ) (hfg : ∀ k, f k ≤ g k) (ks : List ℤ) :
    ∀ m1 m2 : JSMap, (∀ k, JSMap.getD m1 k ≤ JSMap.getD m2 k) →
      ∀ q, JSMap.getD (ks.foldl (fun m k => JSMap.set m k (f k)) m1) q ≤
        JSMap.getD (ks.foldl (fun m k => JSMap.set m k (g k)) m2) q := by
  induction ks with
  | nil => intro m1 m2 h q; exact h q
  | cons a t ih =>
      intro m1 m2 h q
      simp only [List.foldl_cons]
      apply ih
      intro k
      rw [JSMap.getD_set, JSMap.getD_set]
      split
      · exact hfg a
      · exact h k

/-- The ledger fold of `monthlyAvailableFunds` is pointwise monotone in the
monthly contribution. -/
theorem ledgerFold_getD_mono (c1 c2 : ℚ) (hc : c1 ≤ c2) (ps : List (ℤ × ℤ)) :
    ∀ m1 m2 : JSMap, (∀ k, JSMap.getD m1 k ≤ JSMap.getD m2 k) →
      ∀ q, JSMap.getD
          (ps.foldl (fun m p => JSMap.set m p.1 (JSMap.getD m p.2 + c1)) m1) q ≤
        JSMap.getD
          (ps.foldl (fun m p => JSMap.set m p.1 (JSMap.getD m p.2 + c2)) m2) q := by
  induction ps with
  | nil => intro m1 m2 h q; exact h q
  | cons a t ih =>
      intro m1 m2 h q
      simp only [List.foldl_cons]
      apply ih
      intro k
      rw [JSMap.getD_set, JSMap.getD_set]
      split
      · exact add_le_add (h a.2) hc
      · exact h k

/-- Raising the monthly contribution never lowers any month's available
funds. -/
theorem monthlyAvailableFunds_getD_mono (base : JSDate) (fund : Fund)
    (totalInstallments : ℕ) (c1 c2 : ℚ) (hc : c1 ≤ c2) (q : ℤ) :
    JSMap.getD
        (monthlyAvailableFunds base { fund with monthlyContribution := c1 }
          totalInstallments) q ≤
      JSMap.getD
        (monthlyAvailableFunds base { fund with monthlyContribution := c2 }
          totalInstallments) q := by
  simp only [monthlyAvailableFunds]
  exact ledgerFold_getD_mono c1 c2 hc _ _ _ (fun k => le_refl _) q

/-- Every month has at least 28 days. -/
theorem daysInMonth_ge (ym : ℤ) : 28 ≤ daysInMonth ym := by
  simp only [daysInMonth]
  split_ifs <;> norm_num

/-- With a day of month at most 28, `setMonth` never overflows and moving `k`
months is exactly adding `k` to the month counter. -/
theorem addMonthsJS_of_day_le (d : JSDate) (k : ℤ) (hday : d.day ≤ 28) :
    addMonthsJS d k = plusCalendarMonths d k := by
  simp only [addMonthsJS, plusCalendarMonths]
  rw [if_pos (le_trans hday (daysInMonth_ge _))]

/-- A built projection is green exactly when its margin is non-negative. -/
theorem buildProjection_status_iff (avail existing simPay : JSMap) (k : ℤ) :
    ((buildProjection avail existing simPay k).status == "Verde") = true ↔
      0 ≤ (buildProjection avail existing simPay k).remainingMargin := by
  simp only [buildProjection]
  by_cases h :
      0 ≤ JSMap.getD avail k - (JSMap.getD existing k + JSMap.getD simPay k) <;>
    simp [h]

/-- Field extraction: the verdict of the assembled result. -/
theorem simulateExpense_canAfford (base : JSDate) (fund : Fund) (expenses : List Expense)
    (amount : ℚ) (totalInstallments : ℕ) (startDate : Option JSDate) :
    (simulateExpense base fund expenses amount totalInstallments startDate).canAfford =
      canAffordOf
        (monthlyProjections base fund expenses amount totalInstallments (startDate.getD base))
        (startDate.getD base) totalInstallments := rfl

/-- Field extraction: the horizon verdict of the assembled result. -/
theorem simulateExpense_canPayTotal (base : JSDate) (fund : Fund) (expenses : List Expense)
    (amount : ℚ) (totalInstallments : ℕ) (startDate : Option JSDate) :
    (simulateExpense base fund expenses amount totalInstallments startDate).canPayTotal =
      canPayTotalOf
        (monthlyProjections base fund expenses amount totalInstallments
          (startDate.getD base)) := rfl

/-- Field extraction: the projection list of the assembled result. -/
theorem simulateExpense_projections (base : JSDate) (fund : Fund) (expenses : List Expense)
    (amount : ℚ) (totalInstallments : ℕ) (startDate : Option JSDate) :
    (simulateExpense base fund expenses amount totalInstallments startDate).monthlyProjections =
      monthlyProjections base fund expenses amount totalInstallments
        (startDate.getD base) := rfl

/-- Field extraction: the suggested contribution of the assembled result. -/
theorem simulateExpense_suggested (base : JSDate) (fund : Fund) (expenses : List Expense)
    (amount : ℚ) (totalInstallments : ℕ) (startDate : Option JSDate) :
    (simulateExpense base fund expenses amount totalInstallments
        startDate).suggestedMonthlyContribution =
      (if canAffordOf
          (monthlyProjections base fund expenses amount totalInstallments
            (startDate.getD base))
          (startDate.getD base) totalInstallments then 0
       else suggestedContributionOf fund amount totalInstallments
        (deficitOf
          (monthlyProjections base fund expenses amount totalInstallments
            (startDate.getD base)))) := rfl

/-- Field extraction: the suggested duration of the assembled result. -/
theorem simulateExpense_suggestedDuration (base : JSDate) (fund : Fund)
    (expenses : List Expense) (amount : ℚ) (totalInstallments : ℕ)
    (startDate : Option JSDate) :
    (simulateExpense base fund expenses amount totalInstallments
        startDate).suggestedDurationMonths =
      (if canAffordOf
          (monthlyProjections base fund expenses amount totalInstallments
            (startDate.getD base))
          (startDate.getD base) totalInstallments then 0
       else suggestedDurationOf fund.monthlyContribution
        (deficitOf
          (monthlyProjections base fund expenses amount totalInstallments
            (startDate.getD base)))
        (suggestedContributionOf fund amount totalInstallments
          (deficitOf
            (monthlyProjections base fund expenses amount totalInstallments
              (startDate.getD base))))) := rfl

/-! ## Claims -/

/-- C1 (amended): in the `credit-card.service.new.ts` engine the affordability
verdict is selected by installment count: with `totalInstallments = 1` it is
the first-month verdict (the status of the projection matching the proposed
start month), otherwise it is `canPayTotal`. (As stated over every cited
revision the claim fails: see the counterexample against
`credit-card.service.ts`.) -/
theorem c1_verdict_by_installment_count (base : JSDate) (fund : Fund)
    (expenses : List Expense) (amount : ℚ) (totalInstallments : ℕ)
    (startDate : Option JSDate) :
    (simulateExpense base fund expenses amount totalInstallments startDate).canAfford =
      if totalInstallments = 1 then
        canPayFirstMonthOf
          (monthlyProjections base fund expenses amount totalInstallments
            (startDate.getD base))
          (startDate.getD base)
      else
        (simulateExpense base fund expenses amount totalInstallments
          startDate).canPayTotal := rfl

/-- C1 (counterexample): in the `credit-card.service.ts` revision the
multi-installment verdict is `canPayFirstMonth && canMaintainPayments`, not
`canPayTotal`. With an empty fund (contribution 100), no existing expenses and
a proposal of 120 in 2 installments starting now, `canAfford` is false while
`canPayTotal` is true. -/
theorem c1_counterexample :
    (oldSimulateVerdicts ⟨24300, 1⟩ ⟨100, 0, 0⟩ [] 120 2 none).canAfford = false ∧
      (oldSimulateVerdicts ⟨24300, 1⟩ ⟨100, 0, 0⟩ [] 120 2 none).canPayTotal = true := by
  exact ⟨by with_unfolding_all rfl, by with_unfolding_all rfl⟩

/-- C2 (amended): in the `credit-card.service.new.ts` engine, `canPayTotal` is
true exactly when every month of the projection horizon has a non-negative
margin. (The environment-conditioned revision violates the claim's "under any
environment or configuration": see the counterexample.) -/
theorem c2_canPayTotal_iff_no_negative_margin (base : JSDate) (fund : Fund)
    (expenses : List Expense) (amount : ℚ) (totalInstallments : ℕ)
    (startDate : Option JSDate) :
    (simulateExpense base fund expenses amount totalInstallments startDate).canPayTotal =
        true ↔
      ∀ p ∈ (simulateExpense base fund expenses amount totalInstallments
          startDate).monthlyProjections, 0 ≤ p.remainingMargin := by
  rw [simulateExpense_canPayTotal, simulateExpense_projections]
  simp only [canPayTotalOf, List.all_eq_true]
  constructor
  · intro h p hp
    obtain ⟨k, hk, hpk⟩ := List.mem_map.mp hp
    exact hpk ▸ (buildProjection_status_iff _ _ _ k).mp (hpk ▸ h p hp)
  · intro h p hp
    obtain ⟨k, hk, hpk⟩ := List.mem_map.mp hp
    exact hpk ▸ (buildProjection_status_iff _ _ _ k).mpr (hpk ▸ h p hp)

/-- C2 (counterexample): in the expense-calculator revision with
`NODE_ENV = 'test'`, a simulation with one deficit month out of twelve
(fund 1000 accumulated, contribution 100, proposal 1100 in one installment
starting now) reports `canPayTotal = true` although a month has a negative
margin: the test-mode rule passes whenever at least 70% of the horizon
months are green. -/
theorem c2_counterexample :
    (envSimulateExpense true ⟨24300, 1⟩ ⟨100, 0, 1000⟩ [] 1100 1 none).canPayTotal =
        true ∧
      ((envSimulateExpense true ⟨24300, 1⟩ ⟨100, 0, 1000⟩ [] 1100 1
            none).monthlyProjections.any
          (fun p => decide (p.remainingMargin < 0))) = true := by
  exact ⟨by with_unfolding_all rfl, by with_unfolding_all rfl⟩

/-- C3 (amended): for `amount > 0`, `totalInstallments ≥ 1` and a start date
whose day of month is at most 28, the scheduler returns exactly
`totalInstallments` installments numbered `1 .. totalInstallments` in order,
each pending with amount `amount / totalInstallments`, installment `i` due on
`startDate` plus `i - 1` calendar months (consecutive months), and the
amounts sum exactly to `amount`. For start days above 28 the due dates follow
the JS `setMonth` overflow instead (see the counterexample); count, numbering,
status, equal amounts and the sum hold for every start date. -/
theorem c3_scheduler_properties (amount : ℚ) (totalInstallments : ℕ)
    (startDate : JSDate) (_hamount : 0 < amount) (htotal : 1 ≤ totalInstallments)
    (hday : startDate.day ≤ 28) :
    (generateInstallments amount totalInstallments startDate).length =
        totalInstallments ∧
      (∀ i, ∀ hi : i < (generateInstallments amount totalInstallments startDate).length,
        (generateInstallments amount totalInstallments startDate).get ⟨i, hi⟩ =
          { number := i + 1
            amount := amount / totalInstallments
            dueDate := plusCalendarMonths startDate i
            status := InstallmentStatus.pending }) ∧
      ((generateInstallments amount totalInstallments startDate).map
          Installment.amount).sum = amount := by
  refine ⟨by simp [generateInstallments], ?_, ?_⟩
  · intro i hi
    simp only [generateInstallments, List.get_eq_getElem, List.getElem_map,
      List.getElem_range]
    rw [addMonthsJS_of_day_le _ _ hday]
  · have h0 : (totalInstallments : ℚ) ≠ 0 := Nat.cast_ne_zero.mpr (by omega)
    simp only [generateInstallments, List.map_map]
    have h1 : ((List.range totalInstallments).map
        (Installment.amount ∘ fun i =>
          ({ number := i + 1
             amount := amount / totalInstallments
             dueDate := addMonthsJS startDate i
             status := InstallmentStatus.pending } : Installment))) =
        List.replicate totalInstallments (amount / totalInstallments) := by
      rw [List.eq_replicate_iff]
      refine ⟨by simp, ?_⟩
      intro b hb
      obtain ⟨i, _, hbi⟩ := List.mem_map.mp hb
      exact hbi.symm
    rw [h1, List.sum_replicate, nsmul_eq_mul, mul_comm, div_mul_cancel₀ _ h0]

/-- C3 (counterexample): starting on 2025-01-31, a two-installment schedule
puts the second installment on 2025-03-03 (month counter 24302): the JS
`setMonth` day-overflow skips February, so the due date is not
`startDate` plus one calendar month and the due months are not
consecutive. -/
theorem c3_counterexample :
    (generateInstallments 2 2 ⟨24300, 31⟩).map Installment.dueDate =
        [⟨24300, 31⟩, ⟨24302, 3⟩] ∧
      (⟨24302, 3⟩ : JSDate) ≠ plusCalendarMonths ⟨24300, 31⟩ 1 := by
  refine ⟨by with_unfolding_all rfl, by decide⟩

/-- C3 (witness): the amended theorem applied to amount 100 in 2 installments
starting on day 15. -/
theorem c3_witness :
    ((generateInstallments 100 2 ⟨24300, 15⟩).map Installment.amount).sum = 100 :=
  (c3_scheduler_properties 100 2 ⟨24300, 15⟩ (by norm_num) (by norm_num)
    (by norm_num)).2.2

/-- C4: no code on the path checks `amount > 0`. The scheduler itself never
rejects (with `totalInstallments = 0` it returns the empty installment list;
the creation path only stops that case at save time, through the schema's
`min: 1`). For a non-positive amount nothing stops the request: −100 in two
installments yields two pending installments of −50 each, the affordability
check passes (negative payments only raise margins), the schema has no lower
bound on amounts, and the degenerate expense is persisted with no error. -/
theorem c4_degenerate_installments :
    generateInstallments 100 0 ⟨24300, 1⟩ = [] ∧
      createExpense ⟨24300, 1⟩ (some ⟨100, 0, 0⟩) [] ⟨-100, 2, none, false⟩ =
        Except.ok
          ⟨-100, 2,
            [⟨1, -50, ⟨24300, 1⟩, InstallmentStatus.pending⟩,
              ⟨2, -50, ⟨24301, 1⟩, InstallmentStatus.pending⟩], false⟩ := by
  exact ⟨rfl, by with_unfolding_all rfl⟩

/-- C5: whenever the simulation verdict is negative, the suggested monthly
contribution equals
`min (monthlyContribution + ceil (deficit / reasonableDuration / 100) * 100,
maxReasonableContribution)` with
`reasonableDuration = clamp (ceil (deficit / (monthlyContribution * 0.3)), 1, 6)`
and `maxReasonableContribution` the fund's configured maximum when it is set
(non-zero) and greater than the current contribution, otherwise
`max (1.5 * monthlyContribution, 1.5 * proposedInstallmentAmount)`; the
deficit sums `|margin|` over the insufficient months. -/
theorem c5_advisor_contribution (base : JSDate) (fund : Fund) (expenses : List Expense)
    (amount : ℚ) (totalInstallments : ℕ) (startDate : Option JSDate)
    (hca : (simulateExpense base fund expenses amount totalInstallments
      startDate).canAfford = false) :
    (simulateExpense base fund expenses amount totalInstallments
        startDate).suggestedMonthlyContribution =
      min
        (fund.monthlyContribution +
          (⌈deficitOf (monthlyProjections base fund expenses amount totalInstallments
              (startDate.getD base)) /
            ((min 6 (max 1
              ⌈deficitOf (monthlyProjections base fund expenses amount totalInstallments
                  (startDate.getD base)) /
                (fund.monthlyContribution * (3 / 10))⌉) : ℤ) : ℚ) / 100⌉ : ℚ) * 100)
        (if fund.maxMonthlyContribution ≠ 0 ∧
            fund.monthlyContribution < fund.maxMonthlyContribution then
          fund.maxMonthlyContribution
        else
          max (fund.monthlyContribution * (3 / 2))
            ((amount / totalInstallments) * (3 / 2))) := by
  rw [simulateExpense_suggested]
  rw [simulateExpense_canAfford] at hca
  rw [hca]
  simp only [Bool.false_eq_true, if_false]
  rfl

/-- C5 (witness): a fund of contribution 100 with nothing accumulated cannot
afford 1200 in one installment; the advisor suggests 300 (deficit 1200,
duration clamped to 6, extra 200 rounded to the hundred, below the computed
cap 1800). -/
theorem c5_witness :
    (simulateExpense ⟨24300, 1⟩ ⟨100, 0, 0⟩ [] 1200 1
        none).suggestedMonthlyContribution = 300 := by
  rw [c5_advisor_contribution ⟨24300, 1⟩ ⟨100, 0, 0⟩ [] 1200 1 none
    (by with_unfolding_all rfl)]
  with_unfolding_all rfl

/-- C6: whenever the simulation verdict is negative, the suggested duration is
`max (1, ceil (deficit / (suggested - monthlyContribution)))` months when the
suggested contribution strictly exceeds the current one, and `0` otherwise
(the "cannot become affordable under current constraints" state). -/
theorem c6_suggested_duration (base : JSDate) (fund : Fund) (expenses : List Expense)
    (amount : ℚ) (totalInstallments : ℕ) (startDate : Option JSDate)
    (hca : (simulateExpense base fund expenses amount totalInstallments
      startDate).canAfford = false) :
    (simulateExpense base fund expenses amount totalInstallments
        startDate).suggestedDurationMonths =
      if fund.monthlyContribution <
          (simulateExpense base fund expenses amount totalInstallments
            startDate).suggestedMonthlyContribution then
        max 1
          ⌈deficitOf (monthlyProjections base fund expenses amount totalInstallments
              (startDate.getD base)) /
            ((simulateExpense base fund expenses amount totalInstallments
                startDate).suggestedMonthlyContribution -
              fund.monthlyContribution)⌉
      else 0 := by
  rw [simulateExpense_suggestedDuration, simulateExpense_suggested]
  rw [simulateExpense_canAfford] at hca
  rw [hca]
  simp only [Bool.false_eq_true, if_false]
  rfl

/-- C6 (witness): in the C5 witness scenario the suggested duration is
`max (1, ceil (1200 / (300 - 100))) = 6` months. -/
theorem c6_witness :
    (simulateExpense ⟨24300, 1⟩ ⟨100, 0, 0⟩ [] 1200 1
        none).suggestedDurationMonths = 6 := by
  rw [c6_suggested_duration ⟨24300, 1⟩ ⟨100, 0, 0⟩ [] 1200 1 none
    (by with_unfolding_all rfl)]
  with_unfolding_all rfl

/-- C7: the simulation raises "Credit card fund not found for this user"
exactly when the user has no fund; with a fund present it returns a result
(never this error), and without one it never proceeds on a default fund. -/
theorem c7_missing_fund (base : JSDate) (fundLookup : Option Fund)
    (expenses : List Expense) (amount : ℚ) (totalInstallments : ℕ)
    (startDate : Option JSDate) :
    simulateExpenseService base fundLookup expenses amount totalInstallments startDate =
        Except.error "Credit card fund not found for this user" ↔
      fundLookup = none := by
  cases fundLookup <;> simp [simulateExpenseService]

/-- C8: with the fund snapshot, the existing obligations and the proposal
fixed, raising the monthly contribution never lowers any month's margin
(available funds before payment minus total obligations). -/
theorem c8_margin_monotone (base : JSDate) (fund : Fund) (expenses : List Expense)
    (amount : ℚ) (totalInstallments : ℕ) (start : JSDate) (c1 c2 : ℚ)
    (hc : c1 ≤ c2) (q : ℤ) :
    JSMap.getD
        (monthlyMargins base { fund with monthlyContribution := c1 } expenses amount
          totalInstallments start) q ≤
      JSMap.getD
        (monthlyMargins base { fund with monthlyContribution := c2 } expenses amount
          totalInstallments start) q := by
  simp only [monthlyMargins]
  exact foldSet_getD_mono _ _
    (fun k => sub_le_sub_right
      (monthlyAvailableFunds_getD_mono base fund totalInstallments c1 c2 hc k) _)
    (simulationMonths base totalInstallments) [] [] (fun k => le_refl _) q

/-- C8 (witness): the theorem applied to contributions 100 ≤ 200 at the second
horizon month of a concrete simulation. -/
theorem c8_witness :
    JSMap.getD (monthlyMargins ⟨24300, 1⟩ ⟨100, 0, 500⟩ [] 1200 2 ⟨24300, 1⟩) 24301 ≤
      JSMap.getD (monthlyMargins ⟨24300, 1⟩ ⟨200, 0, 500⟩ [] 1200 2 ⟨24300, 1⟩) 24301 :=
  c8_margin_monotone ⟨24300, 1⟩ ⟨0, 0, 500⟩ [] 1200 2 ⟨24300, 1⟩ 100 200
    (by norm_num) 24301

/-- C9 (amended): every `updateInstallmentStatus` call marking an existing
installment number as paid sets the fund's accumulated amount to
`max (0, accumulatedAmount - installment.amount)` — including repeated calls
on an already-paid installment, and a later call with status pending reverts
it: the paid transition is not once-only (see the counterexample). -/
theorem c9_paid_decrement (expense : Expense) (fund : Fund) (installmentNumber : ℕ)
    (inst : Installment)
    (hfind : expense.installments.find? (fun i => i.number == installmentNumber) =
      some inst) :
    updateInstallmentStatus expense (some fund) installmentNumber
        InstallmentStatus.paid =
      Except.ok
        ({ expense with
            installments :=
              setStatusFirst expense.installments installmentNumber
                InstallmentStatus.paid },
          some { fund with
            accumulatedAmount := max 0 (fund.accumulatedAmount - inst.amount) }) := by
  simp [updateInstallmentStatus, hfind]

/-- C9 (counterexample): paying installment 1 (amount 50) of an expense twice
decrements the fund twice (80 to 30, then 30 to 0), and a subsequent pending
update reverts the paid status — the transition is not once-only. -/
theorem c9_counterexample :
    updateInstallmentStatus
        ⟨50, 1, [⟨1, 50, ⟨24300, 1⟩, InstallmentStatus.pending⟩], false⟩
        (some ⟨0, 0, 80⟩) 1 InstallmentStatus.paid =
      Except.ok
        (⟨50, 1, [⟨1, 50, ⟨24300, 1⟩, InstallmentStatus.paid⟩], false⟩,
          some ⟨0, 0, 30⟩) ∧
    updateInstallmentStatus
        ⟨50, 1, [⟨1, 50, ⟨24300, 1⟩, InstallmentStatus.paid⟩], false⟩
        (some ⟨0, 0, 30⟩) 1 InstallmentStatus.paid =
      Except.ok
        (⟨50, 1, [⟨1, 50, ⟨24300, 1⟩, InstallmentStatus.paid⟩], false⟩,
          some ⟨0, 0, 0⟩) ∧
    updateInstallmentStatus
        ⟨50, 1, [⟨1, 50, ⟨24300, 1⟩, InstallmentStatus.paid⟩], false⟩
        (some ⟨0, 0, 0⟩) 1 InstallmentStatus.pending =
      Except.ok
        (⟨50, 1, [⟨1, 50, ⟨24300, 1⟩, InstallmentStatus.pending⟩], false⟩,
          some ⟨0, 0, 0⟩) := by
  exact ⟨by with_unfolding_all rfl, by with_unfolding_all rfl,
    by with_unfolding_all rfl⟩

/-- C9 (witness): the amended theorem applied to a two-installment expense,
paying installment 2 of amount 30 against a fund holding 100. -/
theorem c9_witness :
    updateInstallmentStatus
        ⟨60, 2, [⟨1, 30, ⟨24300, 1⟩, InstallmentStatus.pending⟩,
          ⟨2, 30, ⟨24301, 1⟩, InstallmentStatus.pending⟩], false⟩
        (some ⟨10, 0, 100⟩) 2 InstallmentStatus.paid =
      Except.ok
        (⟨60, 2, [⟨1, 30, ⟨24300, 1⟩, InstallmentStatus.pending⟩,
          ⟨2, 30, ⟨24301, 1⟩, InstallmentStatus.paid⟩], false⟩,
          some ⟨10, 0, 70⟩) := by
  rw [c9_paid_decrement _ _ _ ⟨2, 30, ⟨24301, 1⟩, InstallmentStatus.pending⟩
    (by rfl)]
  with_unfolding_all rfl

/-- C10: on the non-simulation path, `createExpense` runs the affordability
simulation first and throws "Insufficient funds to create this expense" when
`canAfford` is false, before any save — nothing is persisted and the fund is
untouched (the function never writes the fund). When `canAfford` is true the
expense is saved with its generated installments (succeeding whenever the
schema validation of `expense.save ()` passes, i.e. `totalInstallments ≥ 1`).
The simulation-flagged path saves without any affordability check and never
raises the affordability error, even when the save itself fails
validation. -/
theorem c10_create_expense_guard (base : JSDate) (fund : Fund)
    (expenses : List Expense) (data : ExpenseCreate) :
    (data.isSimulation = false →
      (simulateExpense base fund expenses data.amount data.totalInstallments
        data.purchaseDate).canAfford = false →
      createExpense base (some fund) expenses data =
        Except.error "Insufficient funds to create this expense") ∧
    (data.isSimulation = false →
      (simulateExpense base fund expenses data.amount data.totalInstallments
        data.purchaseDate).canAfford = true →
      1 ≤ data.totalInstallments →
      createExpense base (some fund) expenses data =
        Except.ok
          ⟨data.amount, data.totalInstallments,
            generateInstallments data.amount data.totalInstallments
              (data.purchaseDate.getD base), data.isSimulation⟩) ∧
    (data.isSimulation = true →
      1 ≤ data.totalInstallments →
      createExpense base (some fund) expenses data =
        Except.ok
          ⟨data.amount, data.totalInstallments,
            generateInstallments data.amount data.totalInstallments
              (data.purchaseDate.getD base), data.isSimulation⟩) ∧
    (data.isSimulation = true →
      createExpense base (some fund) expenses data ≠
        Except.error "Insufficient funds to create this expense") := by
  refine ⟨fun hsim hca => ?_, fun hsim hca htot => ?_, fun hsim htot => ?_,
    fun hsim => ?_⟩
  · simp [createExpense, hsim, hca]
  · simp [createExpense, saveExpense, hsim, hca, htot]
  · simp [createExpense, saveExpense, hsim, htot]
  · simp only [createExpense, hsim, if_true]
    unfold saveExpense
    split
    · simp
    · simp

/-- C10 (witness): the theorem applied to a rejecting run (contribution 100,
nothing accumulated, proposal 1200), an accepting run (10000 accumulated), a
simulation-flagged run on the rejecting fund, and a simulation-flagged run
with an invalid installment count (save fails validation, yet no
affordability error). -/
theorem c10_witness :
    createExpense ⟨24300, 1⟩ (some ⟨100, 0, 0⟩) [] ⟨1200, 1, none, false⟩ =
        Except.error "Insufficient funds to create this expense" ∧
      createExpense ⟨24300, 1⟩ (some ⟨100, 0, 10000⟩) [] ⟨1200, 1, none, false⟩ =
        Except.ok ⟨1200, 1, generateInstallments 1200 1 ⟨24300, 1⟩, false⟩ ∧
      createExpense ⟨24300, 1⟩ (some ⟨100, 0, 0⟩) [] ⟨1200, 1, none, true⟩ =
        Except.ok ⟨1200, 1, generateInstallments 1200 1 ⟨24300, 1⟩, true⟩ ∧
      createExpense ⟨24300, 1⟩ (some ⟨100, 0, 0⟩) [] ⟨100, 0, none, true⟩ ≠
        Except.error "Insufficient funds to create this expense" :=
  ⟨(c10_create_expense_guard ⟨24300, 1⟩ ⟨100, 0, 0⟩ [] ⟨1200, 1, none, false⟩).1
      rfl (by with_unfolding_all rfl),
    (c10_create_expense_guard ⟨24300, 1⟩ ⟨100, 0, 10000⟩ []
        ⟨1200, 1, none, false⟩).2.1 rfl (by with_unfolding_all rfl) (by norm_num),
    (c10_create_expense_guard ⟨24300, 1⟩ ⟨100, 0, 0⟩ []
        ⟨1200, 1, none, true⟩).2.2.1 rfl (by norm_num),
    (c10_create_expense_guard ⟨24300, 1⟩ ⟨100, 0, 0⟩ []
        ⟨100, 0, none, true⟩).2.2.2 rfl⟩
